import Mathlib

/-!
Shallow embedding of the player suggestion / comparison core of
`src/app.py` (an IPL analytics dashboard).

Modelling conventions:
* A pandas `DataFrame` is a `List` of row structures; row order is the
  frame's row order.
* `performance_score` (a Python float used only in comparisons and as a
  sort key) is modelled as `ℚ`; `runs`, `wickets`, `id`, `match_id` as
  `Int`; names and seasons as `String`.
* `Series.unique()` and `DataFrame.drop_duplicates()` keep the first
  occurrence of each value, modelled by `dropDuplicates`.
* `players_df.merge(m, on := "player", how := "inner")` produces, for each
  left row in order, one output row per matching right row in right-frame
  order (pandas preserves left-key order for inner joins), modelled by
  `mergeInner`.
* `eligible.sort_values("final_score", ascending := False)` is modelled by
  `sort_values_desc`: for a descending sort `pandas.core.sorting.nargsort`
  reverses the value array and the index array, computes an ascending
  argsort of the reversed values, and reverses the resulting indexer again
  (the stable-descending fix of pandas issue 6399).  The default `kind` is
  numpy's introsort, which on the partition sizes at issue degenerates to a
  stable insertion sort; we therefore model the sort as reversing the
  input, applying the stable ascending `List.insertionSort`, and reversing
  the result.  The double reversal makes the descending sort stable: rows
  with equal keys keep their original relative order.
* `selection.iloc[0]` on an empty selection raises `IndexError`; the tab-2
  interaction is therefore modelled as returning an explicit
  `Tab2Outcome.indexError` value in that case (an uncaught exception, i.e.
  the script run crashes).
* Streamlit rendering (`st.success`, charts, the rounded display of
  `performance_score` at lines 206/212) is presentation only and is not
  modelled; the comparison result keeps the two looked-up rows and the
  three verdicts computed at lines 221-242.
-/

namespace CricketPred

/-- Row of `player_features_with_score.csv` (`players_df`): the columns the
core logic reads. -/
structure PlayerRow where
  player : String
  runs : Int
  wickets : Int
  performance_score : ℚ
deriving DecidableEq

/-- Row of `deliveries.csv` (`deliveries_df`): the columns the core logic
reads. -/
structure DeliveryRow where
  match_id : Int
  batter : String
  batting_team : String
deriving DecidableEq

/-- Row of `matches.csv` (`matches_df`): the columns the core logic reads. -/
structure MatchRow where
  id : Int
  season : String
  team1 : String
  team2 : String
deriving DecidableEq

/-- Row of the `player_team_map` frame built in `get_season_data`
(lines 40-44): distinct `(batter, batting_team)` pairs renamed to
`(player, team)`. -/
structure TeamMapRow where
  player : String
  team : String
deriving DecidableEq

/-- Row of `players_season` (the season player view): the `players_df`
columns plus the joined `team` column. -/
structure SeasonPlayerRow where
  player : String
  runs : Int
  wickets : Int
  performance_score : ℚ
  team : String
deriving DecidableEq

/-- Row of the frame returned by `suggest_players`: an eligible season row
with the added `final_score` column (line 52). -/
structure SuggestRow where
  player : String
  runs : Int
  wickets : Int
  performance_score : ℚ
  team : String
  final_score : ℚ
deriving DecidableEq

/-- Keep-first deduplication with an accumulator of already seen values:
`dropDupAux seen l` drops from `l` every element already in `seen` or seen
earlier in `l`. -/
def dropDupAux {α : Type _} [DecidableEq α] (seen : List α) : List α → List α
  | [] => []
  | x :: xs => if x ∈ seen then dropDupAux seen xs else x :: dropDupAux (x :: seen) xs

/-- Keep-first deduplication, the semantics of pandas `Series.unique()` and
`DataFrame.drop_duplicates()`. -/
def dropDuplicates {α : Type _} [DecidableEq α] (l : List α) : List α :=
  dropDupAux [] l

/-- Line 33: `season_matches = matches_df[matches_df["season"] == season]`. -/
def season_matches_of (matchesTbl : List MatchRow) (season : String) : List MatchRow :=
  matchesTbl.filter fun m => m.season == season

/-- Line 34: `match_ids = season_matches["id"].unique()`. -/
def match_ids_of (matchesTbl : List MatchRow) (season : String) : List Int :=
  dropDuplicates ((season_matches_of matchesTbl season).map MatchRow.id)

/-- Lines 36-38: `season_deliveries = deliveries_df[deliveries_df["match_id"].isin(match_ids)]`. -/
def season_deliveries_of (matchesTbl : List MatchRow) (deliveries : List DeliveryRow)
    (season : String) : List DeliveryRow :=
  deliveries.filter fun d => (match_ids_of matchesTbl season).contains d.match_id

/-- Lines 40-44: distinct `(batter, batting_team)` pairs of the season's
deliveries, renamed to `(player, team)`. -/
def player_team_map_of (matchesTbl : List MatchRow) (deliveries : List DeliveryRow)
    (season : String) : List TeamMapRow :=
  dropDuplicates ((season_deliveries_of matchesTbl deliveries season).map fun d =>
    ({ player := d.batter, team := d.batting_team } : TeamMapRow))

/-- Output row of the inner join of a `players_df` row with a
`player_team_map` row. -/
def joinRow (q : PlayerRow) (t : TeamMapRow) : SeasonPlayerRow :=
  { player := q.player, runs := q.runs, wickets := q.wickets,
    performance_score := q.performance_score, team := t.team }

/-- Line 46: `players_df.merge(player_team_map, on="player", how="inner")`.
For each left row in order, one output row per matching right row in
right-frame order. -/
def mergeInner (players : List PlayerRow) (tmap : List TeamMapRow) : List SeasonPlayerRow :=
  players.flatMap fun q => (tmap.filter fun t => t.player == q.player).map (joinRow q)

/-- Lines 31-47: `get_season_data(season)`, with the three base tables made
explicit arguments (in the source they are process-wide frames loaded once
at startup). -/
def get_season_data (matchesTbl : List MatchRow) (deliveries : List DeliveryRow)
    (players : List PlayerRow) (season : String) :
    List MatchRow × List SeasonPlayerRow :=
  (season_matches_of matchesTbl season,
    mergeInner players (player_team_map_of matchesTbl deliveries season))

/-- Line 51 / line 93: the eligible rows,
`df[df["team"].isin([team_a, team_b])]`. -/
def eligibleRows (df : List SeasonPlayerRow) (team_a team_b : String) :
    List SeasonPlayerRow :=
  df.filter fun r => r.team == team_a || r.team == team_b

/-- Line 52: `eligible["final_score"] = eligible["performance_score"]`. -/
def addFinalScore (r : SeasonPlayerRow) : SuggestRow :=
  { player := r.player, runs := r.runs, wickets := r.wickets,
    performance_score := r.performance_score, team := r.team,
    final_score := r.performance_score }

/-- Ascending comparison on the `final_score` key column. -/
def scoreLE (x y : SuggestRow) : Prop :=
  x.final_score ≤ y.final_score

instance : DecidableRel scoreLE := fun x y =>
  inferInstanceAs (Decidable (x.final_score ≤ y.final_score))

instance : IsTotal SuggestRow scoreLE :=
  ⟨fun x y => le_total x.final_score y.final_score⟩

instance : IsTrans SuggestRow scoreLE :=
  ⟨fun _ _ _ h h' => le_trans h h'⟩

/-- Line 54: `eligible.sort_values("final_score", ascending=False)`.
For a descending sort pandas `nargsort` reverses values and indices,
argsorts ascending, and reverses the indexer again; the argsort is
modelled as the stable ascending insertion sort (see the module comment).
The net effect is a stable descending sort. -/
def sort_values_desc (l : List SuggestRow) : List SuggestRow :=
  (List.insertionSort scoreLE l.reverse).reverse

/-- Lines 50-57: `suggest_players(df, team_a, team_b, n)`.
`head(n)` is `take n`; `reset_index(drop=True)` does not change the rows. -/
def suggest_players (df : List SeasonPlayerRow) (team_a team_b : String) (n : Nat) :
    List SuggestRow :=
  (sort_values_desc ((eligibleRows df team_a team_b).map addFinalScore)).take n

/-- Outcome of submitting the tab-1 suggestion form (lines 112-120). -/
inductive Tab1Outcome where
  | errorSameTeams
  | warnNoEligible
  | suggestions (rows : List SuggestRow)
deriving DecidableEq

/-- Lines 112-120: the tab-1 submission handler.  `st.error` on identical
teams, `st.warning` when no row is eligible, otherwise the stored
`suggest_players` result. -/
def tab1_submit (view : List SeasonPlayerRow) (team_a team_b : String) (top_n : Nat) :
    Tab1Outcome :=
  if team_a == team_b then
    Tab1Outcome.errorSameTeams
  else if (eligibleRows view team_a team_b).length == 0 then
    Tab1Outcome.warnNoEligible
  else
    Tab1Outcome.suggestions (suggest_players view team_a team_b top_n)

/-- One of the three comparison verdicts printed at lines 221-242. -/
inductive Verdict where
  | player1Better
  | player2Better
  | equal
deriving DecidableEq

/-- The verdict pattern used for each category (lines 221-242):
strictly greater wins, otherwise strictly smaller loses, otherwise equal. -/
def verdictOf {α : Type _} [LinearOrder α] (x y : α) : Verdict :=
  if x > y then Verdict.player1Better
  else if y > x then Verdict.player2Better
  else Verdict.equal

/-- The information content of the tab-2 comparison output: the two
looked-up rows and the three verdicts (batting from `runs`, bowling from
`wickets`, overall from `performance_score`). -/
structure ComparisonResult where
  row1 : SeasonPlayerRow
  row2 : SeasonPlayerRow
  battingVerdict : Verdict
  bowlingVerdict : Verdict
  overallVerdict : Verdict
deriving DecidableEq

/-- Lines 200-242 applied to the two looked-up rows. -/
def mkComparison (p1 p2 : SeasonPlayerRow) : ComparisonResult :=
  { row1 := p1, row2 := p2,
    battingVerdict := verdictOf p1.runs p2.runs,
    bowlingVerdict := verdictOf p1.wickets p2.wickets,
    overallVerdict := verdictOf p1.performance_score p2.performance_score }

/-- Lines 190-193 / 195-198: the Boolean mask of the comparison lookup,
`(df["team"] == team) & (df["player"] == player)`. -/
def matchesSelection (team player : String) (r : SeasonPlayerRow) : Bool :=
  r.team == team && r.player == player

/-- Outcome of the tab-2 comparison interaction (lines 187-242).
`indexError` models the uncaught `IndexError` raised by `.iloc[0]` when a
lookup selects zero rows: the script run crashes. -/
inductive Tab2Outcome where
  | warnSamePlayer
  | indexError
  | shown (c : ComparisonResult)
deriving DecidableEq

/-- Lines 187-242: the tab-2 handler.  The guard at line 187 warns only
when team and player selections are both identical; otherwise each side is
looked up with `.iloc[0]` on the masked frame (first matching row, or
`IndexError` when the mask selects nothing). -/
def tab2_compare (view : List SeasonPlayerRow) (team_1 player_1 team_2 player_2 : String) :
    Tab2Outcome :=
  if team_1 == team_2 && player_1 == player_2 then
    Tab2Outcome.warnSamePlayer
  else
    match (view.filter (matchesSelection team_1 player_1)).head?,
        (view.filter (matchesSelection team_2 player_2)).head? with
    | some p1, some p2 => Tab2Outcome.shown (mkComparison p1 p2)
    | _, _ => Tab2Outcome.indexError

/-! ### Basic lemmas about the embedded primitives -/

theorem mem_dropDupAux {α : Type _} [DecidableEq α] {a : α} :
    ∀ {l seen : List α}, a ∈ dropDupAux seen l ↔ a ∈ l ∧ a ∉ seen := by
  intro l
  induction l with
  | nil => intro seen; simp [dropDupAux]
  | cons x xs ih =>
    intro seen
    by_cases hx : x ∈ seen
    · rw [dropDupAux, if_pos hx, ih]
      constructor
      · rintro ⟨h1, h2⟩
        exact ⟨List.mem_cons_of_mem x h1, h2⟩
      · rintro ⟨h1, h2⟩
        rcases List.mem_cons.mp h1 with rfl | h1
        · exact absurd hx h2
        · exact ⟨h1, h2⟩
    · rw [dropDupAux, if_neg hx]
      constructor
      · intro h
        rcases List.mem_cons.mp h with rfl | h
        · exact ⟨List.mem_cons_self a xs, hx⟩
        · rcases ih.mp h with ⟨h1, h2⟩
          exact ⟨List.mem_cons_of_mem x h1,
            fun hs => h2 (List.mem_cons_of_mem x hs)⟩
      · rintro ⟨h1, h2⟩
        rcases List.mem_cons.mp h1 with rfl | h1
        · exact List.mem_cons_self a _
        · by_cases hax : a = x
          · exact hax ▸ List.mem_cons_self a _
          · exact List.mem_cons_of_mem x (ih.mpr ⟨h1, by
              intro hs
              rcases List.mem_cons.mp hs with h | h
              · exact hax h
              · exact h2 h⟩)

theorem mem_dropDuplicates {α : Type _} [DecidableEq α] {a : α} {l : List α} :
    a ∈ dropDuplicates l ↔ a ∈ l := by
  rw [dropDuplicates, mem_dropDupAux]
  simp

theorem nodup_dropDupAux {α : Type _} [DecidableEq α] :
    ∀ (l seen : List α), (dropDupAux seen l).Nodup := by
  intro l
  induction l with
  | nil => intro seen; exact List.nodup_nil
  | cons x xs ih =>
    intro seen
    by_cases hx : x ∈ seen
    · rw [dropDupAux, if_pos hx]; exact ih seen
    · rw [dropDupAux, if_neg hx]
      refine List.Nodup.cons ?_ (ih (x :: seen))
      intro hmem
      exact (mem_dropDupAux.mp hmem).2 (List.mem_cons_self x seen)

theorem nodup_dropDuplicates {α : Type _} [DecidableEq α] (l : List α) :
    (dropDuplicates l).Nodup :=
  nodup_dropDupAux l []

theorem filter_dropDupAux {α : Type _} [DecidableEq α] (p : α → Bool) :
    ∀ (l seen : List α),
      (dropDupAux seen l).filter p = dropDupAux (seen.filter p) (l.filter p) := by
  intro l
  induction l with
  | nil => intro seen; simp [dropDupAux]
  | cons x xs ih =>
    intro seen
    by_cases hx : x ∈ seen
    · rw [dropDupAux, if_pos hx]
      by_cases hp : p x
      · rw [List.filter_cons_of_pos hp, dropDupAux,
          if_pos (List.mem_filter.mpr ⟨hx, hp⟩), ih]
      · rw [List.filter_cons_of_neg hp, ih]
    · rw [dropDupAux, if_neg hx]
      by_cases hp : p x
      · rw [List.filter_cons_of_pos hp, List.filter_cons_of_pos hp, dropDupAux,
          if_neg (fun h => hx (List.mem_filter.mp h).1), ih,
          List.filter_cons_of_pos hp]
      · rw [List.filter_cons_of_neg hp, List.filter_cons_of_neg hp, ih,
          List.filter_cons_of_neg hp]

theorem filter_dropDuplicates {α : Type _} [DecidableEq α] (p : α → Bool) (l : List α) :
    (dropDuplicates l).filter p = dropDuplicates (l.filter p) := by
  rw [dropDuplicates, dropDuplicates, filter_dropDupAux]
  rfl

theorem map_dropDupAux {α β : Type _} [DecidableEq α] [DecidableEq β] (f : α → β)
    (hf : Function.Injective f) :
    ∀ (l seen : List α),
      dropDupAux (seen.map f) (l.map f) = (dropDupAux seen l).map f := by
  intro l
  induction l with
  | nil => intro seen; simp [dropDupAux]
  | cons x xs ih =>
    intro seen
    by_cases hx : x ∈ seen
    · rw [List.map_cons, dropDupAux,
        if_pos ((List.mem_map_of_injective hf).mpr hx), dropDupAux, if_pos hx, ih]
    · rw [List.map_cons, dropDupAux,
        if_neg (fun h => hx ((List.mem_map_of_injective hf).mp h)), dropDupAux,
        if_neg hx, List.map_cons, ← ih (x :: seen), List.map_cons]

theorem map_dropDuplicates {α β : Type _} [DecidableEq α] [DecidableEq β] (f : α → β)
    (hf : Function.Injective f) (l : List α) :
    dropDuplicates (l.map f) = (dropDuplicates l).map f := by
  rw [dropDuplicates, dropDuplicates, ← map_dropDupAux f hf]
  rfl

theorem length_sort_values_desc (l : List SuggestRow) :
    (sort_values_desc l).length = l.length := by
  rw [sort_values_desc, List.length_reverse,
    (List.perm_insertionSort scoreLE l.reverse).length_eq, List.length_reverse]

/-- Every row of a `suggest_players` result is an eligible row of the input
view with the `final_score` column added. -/
theorem mem_suggest_players {df : List SeasonPlayerRow} {a b : String} {n : Nat}
    {r : SuggestRow} (hr : r ∈ suggest_players df a b n) :
    ∃ s, s ∈ eligibleRows df a b ∧ r = addFinalScore s := by
  rw [suggest_players, sort_values_desc] at hr
  have h1 := List.mem_of_mem_take hr
  rw [List.mem_reverse, List.mem_insertionSort, List.mem_reverse] at h1
  obtain ⟨s, hs, hfs⟩ := List.mem_map.mp h1
  exact ⟨s, hs, hfs.symm⟩

/-! ### Claim C4: boundary behaviour of the row count -/

/-- Concrete one-row season view used for boundary counterexamples. -/
def dfUnitA : List SeasonPlayerRow :=
  [⟨"p", 1, 1, 5, "A"⟩]

/-- Claim C4 counterexample: with `n = 0` and one eligible row, `suggest_players`
returns zero rows — the row count is neither within `[1, eligibleCount]`
(here `[1, 1]`) nor is the result the full eligible set, so the claimed
disjunction fails.  (No error is raised; `head(0)` simply yields an empty
frame.) -/
theorem suggest_players_zero_cex :
    (suggest_players dfUnitA "A" "B" 0).length = 0 ∧
    (eligibleRows dfUnitA "A" "B").length = 1 ∧
    ¬(1 ≤ (suggest_players dfUnitA "A" "B" 0).length ∧
        (suggest_players dfUnitA "A" "B" 0).length ≤
          (eligibleRows dfUnitA "A" "B").length) ∧
    suggest_players dfUnitA "A" "B" 0 ≠
      (eligibleRows dfUnitA "A" "B").map addFinalScore := by
  decide

/-- Claim C4 amended: `suggest_players` is total (no error) and always returns
exactly `min n eligibleCount` rows; in particular `n = 0` yields the empty
result and `n > eligibleCount` yields the full eligible set, with no
clamping to a minimum of one row. -/
theorem suggest_players_length_min (df : List SeasonPlayerRow) (team_a team_b : String)
    (n : Nat) :
    (suggest_players df team_a team_b n).length =
      min n (eligibleRows df team_a team_b).length := by
  rw [suggest_players, List.length_take, length_sort_values_desc, List.length_map]

/-! ### Claim C5: `final_score` equals `performance_score` -/

/-- Concrete one-row season view for the C5 witness. -/
def dfUnitC5 : List SeasonPlayerRow :=
  [⟨"w", 3, 2, 11, "A"⟩]

/-- Claim C5: every row returned by `suggest_players` has its exposed
`final_score` equal to its `performance_score`; the column is a plain copy
(line 52) and no venue or matchup adjustment is applied. -/
theorem suggest_players_final_score_identity (df : List SeasonPlayerRow)
    (team_a team_b : String) (n : Nat) (r : SuggestRow)
    (hr : r ∈ suggest_players df team_a team_b n) :
    r.final_score = r.performance_score := by
  obtain ⟨s, -, rfl⟩ := mem_suggest_players hr
  rfl

theorem suggest_players_final_score_identity_witness :
    (addFinalScore ⟨"w", 3, 2, 11, "A"⟩) ∈ suggest_players dfUnitC5 "A" "B" 1 ∧
    (addFinalScore ⟨"w", 3, 2, 11, "A"⟩).final_score =
      (addFinalScore ⟨"w", 3, 2, 11, "A"⟩).performance_score :=
  ⟨by decide, suggest_players_final_score_identity dfUnitC5 "A" "B" 1 _ (by decide)⟩

/-! ### Claim C1: shape, team membership and ordering of suggestions -/

/-- Claim C1: for distinct teams and `1 ≤ n ≤ eligibleCount`, `suggest_players`
returns exactly `n` rows, every returned row's team is one of the two
selected teams, and the rows are ordered by `final_score` non-increasing. -/
theorem suggest_players_spec (df : List SeasonPlayerRow) (a b : String) (n : Nat)
    (hab : a ≠ b) (h1 : 1 ≤ n) (h2 : n ≤ (eligibleRows df a b).length) :
    (suggest_players df a b n).length = n ∧
    (∀ r ∈ suggest_players df a b n, r.team = a ∨ r.team = b) ∧
    List.Sorted (fun x y : SuggestRow => y.final_score ≤ x.final_score)
      (suggest_players df a b n) := by
  refine ⟨?_, ?_, ?_⟩
  · rw [suggest_players_length_min]
    exact Nat.min_eq_left h2
  · intro r hr
    obtain ⟨s, hs, rfl⟩ := mem_suggest_players hr
    have hmem := (List.mem_filter.mp hs).2
    rw [Bool.or_eq_true, beq_iff_eq, beq_iff_eq] at hmem
    exact hmem
  · have hsorted : List.Sorted scoreLE
        (List.insertionSort scoreLE ((eligibleRows df a b).map addFinalScore).reverse) :=
      List.sorted_insertionSort scoreLE _
    have hrev : List.Pairwise (fun x y : SuggestRow => y.final_score ≤ x.final_score)
        (List.insertionSort scoreLE
          ((eligibleRows df a b).map addFinalScore).reverse).reverse :=
      List.pairwise_reverse.mpr hsorted
    rw [suggest_players, sort_values_desc]
    exact hrev.sublist (List.take_sublist n _)

/-- Concrete two-team view for the C1 witness. -/
def dfPairAB : List SeasonPlayerRow :=
  [⟨"p", 1, 1, 5, "A"⟩, ⟨"q", 2, 2, 9, "B"⟩, ⟨"z", 7, 0, 8, "C"⟩]

theorem suggest_players_spec_witness :
    (("A" : String) ≠ "B" ∧ 1 ≤ 2 ∧ 2 ≤ (eligibleRows dfPairAB "A" "B").length) ∧
    ((suggest_players dfPairAB "A" "B" 2).length = 2 ∧
      (∀ r ∈ suggest_players dfPairAB "A" "B" 2, r.team = "A" ∨ r.team = "B") ∧
      List.Sorted (fun x y : SuggestRow => y.final_score ≤ x.final_score)
        (suggest_players dfPairAB "A" "B" 2)) :=
  ⟨⟨by decide, by decide, by decide⟩,
    suggest_players_spec dfPairAB "A" "B" 2 (by decide) (by decide) (by decide)⟩

/-! ### Claim C3: tie-break order of the sort -/

/-- Filtering a score class through `orderedInsert`: inserting a row either
prepends it to its own score class or leaves every score class unchanged. -/
theorem filter_score_orderedInsert (c : ℚ) (a : SuggestRow) (l : List SuggestRow) :
    (List.orderedInsert scoreLE a l).filter (fun r => r.final_score == c) =
      if a.final_score == c then
        a :: l.filter (fun r => r.final_score == c)
      else
        l.filter (fun r => r.final_score == c) := by
  induction l with
  | nil =>
    rw [List.orderedInsert, List.filter_cons, List.filter_nil]
  | cons y ys ih =>
    rw [List.orderedInsert]
    by_cases hay : scoreLE a y
    · rw [if_pos hay, List.filter_cons]
    · rw [if_neg hay, List.filter_cons, List.filter_cons, ih]
      by_cases hyc : y.final_score = c
      · by_cases hac : a.final_score = c
        · exact absurd (le_of_eq (hac.trans hyc.symm)) hay
        · simp [hyc, hac]
      · simp [hyc]

/-- Stability per score class: `insertionSort` with the ascending key order
preserves the input's relative order inside every `final_score` class. -/
theorem filter_score_insertionSort (c : ℚ) (l : List SuggestRow) :
    (List.insertionSort scoreLE l).filter (fun r => r.final_score == c) =
      l.filter (fun r => r.final_score == c) := by
  induction l with
  | nil => rfl
  | cons x xs ih =>
    rw [List.insertionSort, filter_score_orderedInsert, ih, List.filter_cons]

/-- Concrete tied view: two eligible rows (input order `p` then `q`) with
equal `performance_score`. -/
def dfTie : List SeasonPlayerRow :=
  [⟨"p", 10, 0, 7, "A"⟩, ⟨"q", 20, 1, 7, "B"⟩]

/-- Claim C3: `suggest_players` breaks ties by the rows' original relative
order — the descending sort is stable, since pandas `nargsort` reverses
the values and indices before the ascending argsort and reverses the
indexer after, so equal keys keep their input order: whenever the whole
eligible set is returned, the rows of any fixed `final_score` class appear
in their original input order.  The tie-break outcome is deterministic:
the model is a pure function, so identical inputs yield identical ordered
output. -/
theorem suggest_players_ties_stable (df : List SeasonPlayerRow) (a b : String)
    (n : Nat) (c : ℚ) (h : (eligibleRows df a b).length ≤ n) :
    (suggest_players df a b n).filter (fun r => r.final_score == c) =
      ((eligibleRows df a b).map addFinalScore).filter
        (fun r => r.final_score == c) := by
  rw [suggest_players, sort_values_desc, List.take_of_length_le
    (by rw [List.length_reverse, (List.perm_insertionSort scoreLE _).length_eq,
      List.length_reverse, List.length_map]; exact h),
    List.filter_reverse, filter_score_insertionSort, List.filter_reverse,
    List.reverse_reverse]

theorem suggest_players_ties_stable_witness :
    (eligibleRows dfTie "A" "B").length ≤ 5 ∧
    (suggest_players dfTie "A" "B" 5).filter (fun r => r.final_score == (7 : ℚ)) =
      ((eligibleRows dfTie "A" "B").map addFinalScore).filter
        (fun r => r.final_score == (7 : ℚ)) :=
  ⟨by decide, suggest_players_ties_stable dfTie "A" "B" 5 7 (by decide)⟩

/-! ### Claim C2: behaviour of the comparison on a missing player -/

/-- Concrete one-row season view in which `("A", "x")` matches nothing. -/
def dfC2 : List SeasonPlayerRow :=
  [⟨"q", 1, 1, 5, "B"⟩]

/-- Claim C2 counterexample: with a selection whose first lookup yields zero rows,
the tab-2 comparison evaluates `.iloc[0]` on an empty selection and raises
`IndexError` — the interaction crashes; no `PlayerNotFound` (or any other)
warning is produced, contrary to the claim. -/
theorem compare_missing_player_crashes_cex :
    tab2_compare dfC2 "A" "x" "B" "q" = Tab2Outcome.indexError := by
  decide

/-- Claim C2 amended: whenever the selection passes the line-187 guard and either
lookup yields zero rows, the comparison raises an uncaught `IndexError`
(from `.iloc[0]` on the empty selection) rather than surfacing a
`PlayerNotFound` warning. -/
theorem compare_missing_player_index_error (view : List SeasonPlayerRow)
    (t1 p1 t2 p2 : String) (hsel : ¬(t1 = t2 ∧ p1 = p2))
    (hmiss : view.filter (matchesSelection t1 p1) = [] ∨
      view.filter (matchesSelection t2 p2) = []) :
    tab2_compare view t1 p1 t2 p2 = Tab2Outcome.indexError := by
  have hguard : ¬((t1 == t2 && p1 == p2) = true) := by
    rw [Bool.and_eq_true, beq_iff_eq, beq_iff_eq]
    exact hsel
  rw [tab2_compare, if_neg hguard]
  rcases hmiss with h | h
  · rw [h]
    rcases (view.filter (matchesSelection t2 p2)).head? with _ | r <;> rfl
  · rw [h]
    rcases (view.filter (matchesSelection t1 p1)).head? with _ | r <;> rfl

theorem compare_missing_player_index_error_witness :
    (¬(("A" : String) = "B" ∧ ("x" : String) = "q") ∧
      dfC2.filter (matchesSelection "A" "x") = []) ∧
    tab2_compare dfC2 "A" "x" "B" "q" = Tab2Outcome.indexError :=
  ⟨⟨by decide, by decide⟩,
    compare_missing_player_index_error dfC2 "A" "x" "B" "q" (by decide)
      (Or.inl (by decide))⟩

/-! ### Claim C7: the three comparison verdicts -/

/-- Characterisation of the shared verdict pattern of lines 221-242. -/
theorem verdictOf_spec {α : Type _} [LinearOrder α] (x y : α) :
    (verdictOf x y = Verdict.player1Better ↔ y < x) ∧
    (verdictOf x y = Verdict.player2Better ↔ x < y) ∧
    (verdictOf x y = Verdict.equal ↔ x = y) := by
  rcases lt_trichotomy x y with h | h | h
  · rw [verdictOf, if_neg (asymm h), if_pos h]
    exact ⟨iff_of_false (by simp) (asymm h), iff_of_true rfl h,
      iff_of_false (by simp) (ne_of_lt h)⟩
  · rw [verdictOf, if_neg (h ▸ lt_irrefl x), if_neg (h ▸ lt_irrefl x)]
    exact ⟨iff_of_false (by simp) (h ▸ lt_irrefl x),
      iff_of_false (by simp) (h ▸ lt_irrefl x), iff_of_true rfl h⟩
  · rw [verdictOf, if_pos h]
    exact ⟨iff_of_true rfl h, iff_of_false (by simp) (asymm h),
      iff_of_false (by simp) (ne_of_gt h)⟩

/-- Claim C7: each of the three verdicts is `player1Better` exactly when player 1's
value of its own category is strictly greater, `player2Better` exactly when
player 2's is strictly greater, and `equal` exactly when the values are
equal; the batting verdict is a function of `runs` alone, the bowling
verdict of `wickets` alone and the overall verdict of `performance_score`
alone, so the three are derived independently. -/
theorem comparison_verdicts_spec (p1 p2 : SeasonPlayerRow) :
    ((mkComparison p1 p2).battingVerdict = Verdict.player1Better ↔ p2.runs < p1.runs) ∧
    ((mkComparison p1 p2).battingVerdict = Verdict.player2Better ↔ p1.runs < p2.runs) ∧
    ((mkComparison p1 p2).battingVerdict = Verdict.equal ↔ p1.runs = p2.runs) ∧
    ((mkComparison p1 p2).bowlingVerdict = Verdict.player1Better ↔ p2.wickets < p1.wickets) ∧
    ((mkComparison p1 p2).bowlingVerdict = Verdict.player2Better ↔ p1.wickets < p2.wickets) ∧
    ((mkComparison p1 p2).bowlingVerdict = Verdict.equal ↔ p1.wickets = p2.wickets) ∧
    ((mkComparison p1 p2).overallVerdict = Verdict.player1Better ↔
      p2.performance_score < p1.performance_score) ∧
    ((mkComparison p1 p2).overallVerdict = Verdict.player2Better ↔
      p1.performance_score < p2.performance_score) ∧
    ((mkComparison p1 p2).overallVerdict = Verdict.equal ↔
      p1.performance_score = p2.performance_score) := by
  obtain ⟨hr1, hr2, hr3⟩ := verdictOf_spec p1.runs p2.runs
  obtain ⟨hw1, hw2, hw3⟩ := verdictOf_spec p1.wickets p2.wickets
  obtain ⟨hs1, hs2, hs3⟩ := verdictOf_spec p1.performance_score p2.performance_score
  exact ⟨hr1, hr2, hr3, hw1, hw2, hw3, hs1, hs2, hs3⟩

/-! ### Claim C9: caller-side validation -/

/-- Concrete view in which the same player name appears under two teams. -/
def dfC9 : List SeasonPlayerRow :=
  [⟨"x", 1, 1, 5, "A"⟩, ⟨"x", 2, 2, 6, "B"⟩]

/-- Claim C9 counterexample: the user has selected the identical player `"x"` for
both comparison slots (under different teams), yet the tab-2 caller does
not reject the selection — the guard at line 187 fires only when team and
player are BOTH identical, so the lookups proceed and a comparison of the
player with themself is shown. -/
theorem same_player_not_rejected_cex :
    tab2_compare dfC9 "A" "x" "B" "x" ≠ Tab2Outcome.warnSamePlayer ∧
    tab2_compare dfC9 "A" "x" "B" "x" =
      Tab2Outcome.shown (mkComparison ⟨"x", 1, 1, 5, "A"⟩ ⟨"x", 2, 2, 6, "B"⟩) := by
  decide

/-- Claim C9 amended: the tab-1 caller does reject identical teams (and exactly
those) before invoking the suggestion engine, but the tab-2 caller rejects
a comparison selection exactly when the team selections AND the player
selections are both identical; an identical player under two different
teams is not rejected. -/
theorem caller_validation_characterization (view : List SeasonPlayerRow)
    (t1 pl1 t2 pl2 a b : String) (n : Nat) :
    (tab1_submit view a b n = Tab1Outcome.errorSameTeams ↔ a = b) ∧
    (tab2_compare view t1 pl1 t2 pl2 = Tab2Outcome.warnSamePlayer ↔
      (t1 = t2 ∧ pl1 = pl2)) := by
  constructor
  · rw [tab1_submit]
    by_cases hab : a = b
    · simp [hab]
    · rw [if_neg (by simpa using hab)]
      by_cases hel : (eligibleRows view a b).length == 0 <;>
        simp [hel, hab]
  · rw [tab2_compare]
    by_cases hsel : t1 = t2 ∧ pl1 = pl2
    · rw [if_pos (by rw [Bool.and_eq_true, beq_iff_eq, beq_iff_eq]; exact hsel)]
      simp [hsel]
    · rw [if_neg (by rw [Bool.and_eq_true, beq_iff_eq, beq_iff_eq]; exact hsel)]
      rcases (view.filter (matchesSelection t1 pl1)).head? with _ | r1 <;>
        rcases (view.filter (matchesSelection t2 pl2)).head? with _ | r2 <;>
          simp [hsel]

/-! ### Claim C10: first-match-wins lookup of the comparison -/

/-- Claim C10: when the mask of a comparison side selects one or more rows, the
comparison uses the first matching row in view order for that side and
ignores the remaining matching rows. -/
theorem compare_uses_first_match (view : List SeasonPlayerRow) (t1 pl1 t2 pl2 : String)
    (r1 r2 : SeasonPlayerRow) (rest1 rest2 : List SeasonPlayerRow)
    (hsel : ¬(t1 = t2 ∧ pl1 = pl2))
    (h1 : view.filter (matchesSelection t1 pl1) = r1 :: rest1)
    (h2 : view.filter (matchesSelection t2 pl2) = r2 :: rest2) :
    tab2_compare view t1 pl1 t2 pl2 = Tab2Outcome.shown (mkComparison r1 r2) := by
  rw [tab2_compare,
    if_neg (by rw [Bool.and_eq_true, beq_iff_eq, beq_iff_eq]; exact hsel),
    h1, h2]
  rfl

/-- Concrete view in which the mask `("A", "x")` selects two rows. -/
def dfC10 : List SeasonPlayerRow :=
  [⟨"x", 1, 1, 5, "A"⟩, ⟨"x", 2, 2, 6, "A"⟩, ⟨"y", 3, 3, 7, "B"⟩]

theorem compare_uses_first_match_witness :
    (¬(("A" : String) = "B" ∧ ("x" : String) = "y") ∧
      dfC10.filter (matchesSelection "A" "x") =
        [⟨"x", 1, 1, 5, "A"⟩, ⟨"x", 2, 2, 6, "A"⟩] ∧
      dfC10.filter (matchesSelection "B" "y") = [⟨"y", 3, 3, 7, "B"⟩]) ∧
    tab2_compare dfC10 "A" "x" "B" "y" =
      Tab2Outcome.shown (mkComparison ⟨"x", 1, 1, 5, "A"⟩ ⟨"y", 3, 3, 7, "B"⟩) :=
  ⟨⟨by decide, by decide, by decide⟩,
    compare_uses_first_match dfC10 "A" "x" "B" "y" ⟨"x", 1, 1, 5, "A"⟩
      ⟨"y", 3, 3, 7, "B"⟩ [⟨"x", 2, 2, 6, "A"⟩] [] (by decide)
      (by decide) (by decide)⟩

/-! ### Claim C6: the season resolver -/

/-- Deduplicating a list of match ids does not change which deliveries pass
the `isin` membership test. -/
theorem season_deliveries_filter_eq (matchesTbl : List MatchRow)
    (deliveries : List DeliveryRow) (season : String) :
    season_deliveries_of matchesTbl deliveries season =
      deliveries.filter fun d =>
        (season_matches_of matchesTbl season).any fun m => m.id == d.match_id := by
  rw [season_deliveries_of]
  apply List.filter_congr
  intro d _
  rw [Bool.eq_iff_iff, match_ids_of, List.contains_iff_exists_mem_beq,
    List.any_eq_true]
  constructor
  · rintro ⟨i, hi, hbeq⟩
    rw [mem_dropDuplicates] at hi
    obtain ⟨m, hm, him⟩ := List.mem_map.mp hi
    refine ⟨m, hm, ?_⟩
    rw [beq_iff_eq] at hbeq ⊢
    rw [him, ← hbeq]
  · rintro ⟨m, hm, hbeq⟩
    refine ⟨m.id, mem_dropDuplicates.mpr (List.mem_map.mpr ⟨m, hm, rfl⟩), ?_⟩
    rw [beq_iff_eq] at hbeq ⊢
    exact hbeq.symm

/-- Specification-side Season Resolver, following the wording of §4.1 of
the spec: filter Matches where `season == input`; collect the ids of those
matches (as a membership set); filter Deliveries to those match ids; take
the distinct `(batter, batting_team)` pairs renamed `(player, team)`;
inner-join Players with that map on `player`. -/
def resolve_spec (matchesTbl : List MatchRow) (deliveries : List DeliveryRow)
    (players : List PlayerRow) (season : String) :
    List MatchRow × List SeasonPlayerRow :=
  (matchesTbl.filter fun m => m.season == season,
    mergeInner players (dropDuplicates
      ((deliveries.filter fun d =>
          (matchesTbl.filter fun m => m.season == season).any fun m =>
            m.id == d.match_id).map fun d =>
        ({ player := d.batter, team := d.batting_team } : TeamMapRow))))

/-- Claim C6: `get_season_data` returns the Matches rows of the requested
season paired with the season player view described by the spec-side
resolver (collect the season's match ids, filter Deliveries to them, take
distinct `(batter, batting_team)` pairs renamed `(player, team)`,
inner-join Players on `player`); being a plain function of the season and
the three base tables, it is pure. -/
theorem get_season_data_eq_spec (matchesTbl : List MatchRow)
    (deliveries : List DeliveryRow) (players : List PlayerRow) (season : String) :
    get_season_data matchesTbl deliveries players season =
      resolve_spec matchesTbl deliveries players season := by
  rw [get_season_data, resolve_spec, player_team_map_of,
    season_deliveries_filter_eq, season_matches_of]

/-! ### Claim C8: join duplication for multi-team players -/

/-- Filtering a block of joined rows on a player name keeps the whole
block or none of it, since every joined row carries the left row's
`player`. -/
theorem filter_map_joinRow (q : PlayerRow) (p : String) (l : List TeamMapRow) :
    (l.map (joinRow q)).filter (fun r => r.player == p) =
      if q.player == p then l.map (joinRow q) else [] := by
  induction l with
  | nil =>
    rw [List.map_nil, List.filter_nil]
    split <;> rfl
  | cons t ts ih =>
    rw [List.map_cons, List.filter_cons]
    have hcond : ((joinRow q t).player == p) = (q.player == p) := rfl
    rw [hcond, ih]
    by_cases hqp : (q.player == p) = true <;> simp [hqp]

/-- Filtering the join result on a player name commutes with restricting
the left table to that player name. -/
theorem filter_mergeInner_player (players : List PlayerRow) (tmap : List TeamMapRow)
    (p : String) :
    (mergeInner players tmap).filter (fun r => r.player == p) =
      mergeInner (players.filter fun q => q.player == p) tmap := by
  induction players with
  | nil => rfl
  | cons q qs ih =>
    rw [mergeInner, List.flatMap_cons, List.filter_append]
    rw [mergeInner] at ih
    rw [List.filter_cons]
    by_cases hqp : (q.player == p) = true
    · rw [if_pos hqp, mergeInner, List.flatMap_cons]
      congr 1
      rw [filter_map_joinRow, if_pos hqp]
    · rw [if_neg hqp, filter_map_joinRow, if_neg hqp, List.nil_append]
      exact ih

/-- The distinct batting teams of player `p` within a list of deliveries,
in first-appearance order. -/
def distinctTeamsOf (sd : List DeliveryRow) (p : String) : List String :=
  dropDuplicates ((sd.filter fun d => d.batter == p).map DeliveryRow.batting_team)

/-- Restricting the season's `player_team_map` to a player name gives
exactly one `(player, team)` row per distinct batting team of that player
in the season's deliveries. -/
theorem player_team_map_filter (matchesTbl : List MatchRow)
    (deliveries : List DeliveryRow) (season p : String) :
    (player_team_map_of matchesTbl deliveries season).filter
        (fun t => t.player == p) =
      (distinctTeamsOf (season_deliveries_of matchesTbl deliveries season) p).map
        (fun tm => ({ player := p, team := tm } : TeamMapRow)) := by
  rw [player_team_map_of, filter_dropDuplicates, List.filter_map]
  have hpred : ((season_deliveries_of matchesTbl deliveries season).filter
        ((fun t : TeamMapRow => t.player == p) ∘ fun d =>
          ({ player := d.batter, team := d.batting_team } : TeamMapRow))) =
      (season_deliveries_of matchesTbl deliveries season).filter
        (fun d => d.batter == p) :=
    List.filter_congr (fun d _ => rfl)
  rw [hpred]
  have hmap : ((season_deliveries_of matchesTbl deliveries season).filter
        (fun d => d.batter == p)).map (fun d =>
          ({ player := d.batter, team := d.batting_team } : TeamMapRow)) =
      (((season_deliveries_of matchesTbl deliveries season).filter
        (fun d => d.batter == p)).map DeliveryRow.batting_team).map
          (fun tm => ({ player := p, team := tm } : TeamMapRow)) := by
    rw [List.map_map]
    apply List.map_congr_left
    intro d hd
    have hb := (List.mem_filter.mp hd).2
    rw [beq_iff_eq] at hb
    simp [Function.comp, hb]
  rw [hmap, map_dropDuplicates _ (fun a b h => congrArg TeamMapRow.team h),
    distinctTeamsOf]

/-- Claim C8: if the Players table has exactly one row named `p` and `p` bats for
`k > 1` distinct teams within the season's deliveries, the season player
view contains exactly `k` rows for `p` — one per distinct team, the teams
of those rows being precisely the distinct batting teams with no
repetition (the duplicate-row behaviour of the inner join is preserved). -/
theorem view_duplicates_multi_team_player (matchesTbl : List MatchRow)
    (deliveries : List DeliveryRow) (players : List PlayerRow) (season p : String)
    (q : PlayerRow) (hq : players.filter (fun r => r.player == p) = [q])
    (hk : 1 < (distinctTeamsOf (season_deliveries_of matchesTbl deliveries season)
      p).length) :
    (((get_season_data matchesTbl deliveries players season).2.filter
        (fun r => r.player == p)).map SeasonPlayerRow.team =
      distinctTeamsOf (season_deliveries_of matchesTbl deliveries season) p) ∧
    ((get_season_data matchesTbl deliveries players season).2.filter
        (fun r => r.player == p)).length =
      (distinctTeamsOf (season_deliveries_of matchesTbl deliveries season) p).length ∧
    (distinctTeamsOf (season_deliveries_of matchesTbl deliveries season) p).Nodup := by
  have hqp : q.player = p := by
    have hqmem : q ∈ players.filter (fun r => r.player == p) := by
      rw [hq]; exact List.mem_singleton_self q
    exact beq_iff_eq.mp (List.mem_filter.mp hqmem).2
  have hview : (get_season_data matchesTbl deliveries players season).2.filter
      (fun r => r.player == p) =
      (distinctTeamsOf (season_deliveries_of matchesTbl deliveries season) p).map
        (fun tm => joinRow q ({ player := p, team := tm } : TeamMapRow)) := by
    show (mergeInner players
        (player_team_map_of matchesTbl deliveries season)).filter
        (fun r => r.player == p) = _
    rw [filter_mergeInner_player, hq, mergeInner, List.flatMap_cons,
      List.flatMap_nil, List.append_nil, hqp, player_team_map_filter,
      List.map_map]
    rfl
  refine ⟨?_, ?_, nodup_dropDuplicates _⟩
  · rw [hview, List.map_map]
    exact List.map_id' _
  · rw [hview, List.length_map]

/-- Concrete two-match season in which player `x` bats for two teams. -/
def matchesW8 : List MatchRow :=
  [⟨1, "2019", "A", "B"⟩, ⟨2, "2019", "A", "B"⟩]

/-- Deliveries of the concrete season: `x` bats for `A` in match 1 and for
`B` in match 2. -/
def delivW8 : List DeliveryRow :=
  [⟨1, "x", "A"⟩, ⟨2, "x", "B"⟩, ⟨1, "y", "B"⟩]

/-- Players table with exactly one row named `x`. -/
def playersW8 : List PlayerRow :=
  [⟨"x", 100, 3, 50⟩, ⟨"y", 10, 0, 20⟩]

theorem view_duplicates_multi_team_player_witness :
    (playersW8.filter (fun r => r.player == "x") = [⟨"x", 100, 3, 50⟩] ∧
      1 < (distinctTeamsOf (season_deliveries_of matchesW8 delivW8 "2019")
        "x").length) ∧
    ((((get_season_data matchesW8 delivW8 playersW8 "2019").2.filter
        (fun r => r.player == "x")).map SeasonPlayerRow.team =
      distinctTeamsOf (season_deliveries_of matchesW8 delivW8 "2019") "x") ∧
    ((get_season_data matchesW8 delivW8 playersW8 "2019").2.filter
        (fun r => r.player == "x")).length =
      (distinctTeamsOf (season_deliveries_of matchesW8 delivW8 "2019") "x").length ∧
    (distinctTeamsOf (season_deliveries_of matchesW8 delivW8 "2019") "x").Nodup) :=
  ⟨⟨by decide, by decide⟩,
    view_duplicates_multi_team_player matchesW8 delivW8 playersW8 "2019" "x"
      ⟨"x", 100, 3, 50⟩ (by decide) (by decide)⟩

end CricketPred
